import Mathlib

/-!
Verification of the tell-me-more browser extension core:
subtitle capture pipeline (BaseSubtitleObserver + TellMeMoreApp),
subtitle/session storage (SubtitleStorageManager) and the AI
response service (AIResponseService).

Shallow embedding conventions:
* JS timestamps (`Date.now()`) are `Nat` milliseconds passed explicitly.
* JS `string | undefined` fields become `Option String`.
* `chrome.storage` collections become explicit `List` values threaded
  through the functions that read/write them.
* Randomly generated ids (`generateId`) are supplied as parameters.
-/

/-- Embeds JavaScript `s.trim()`: drop leading and trailing whitespace.
Implemented by structural recursion over the character list so that it
evaluates inside the kernel. -/
def jsTrim (s : String) : String :=
  ⟨((s.data.dropWhile Char.isWhitespace).reverse.dropWhile Char.isWhitespace).reverse⟩

/-- Collapse every whitespace run to a single space; `prevWs` records
whether the previous character belonged to a whitespace run. -/
def collapseWsAux : Bool → List Char → List Char
  | _, [] => []
  | prevWs, c :: cs =>
    if c.isWhitespace then
      if prevWs then collapseWsAux true cs
      else ' ' :: collapseWsAux true cs
    else c :: collapseWsAux false cs

/-- Embeds `text.trim().replace(/\s+/g, ' ')`: trim, then collapse every
run of whitespace to a single space (the normalization used both by
`BaseSubtitleObserver.processSubtitleChanges` and
`TellMeMoreApp.saveSubtitleToStorage`). -/
def normalizeWs (s : String) : String :=
  ⟨collapseWsAux false (jsTrim s).data⟩

/-- Embeds JavaScript `s.toLowerCase()`, by structural recursion over the
character list. -/
def jsToLower (s : String) : String :=
  ⟨s.data.map Char.toLower⟩

/-- `BaseSubtitleObserver.MIN_PROCESS_INTERVAL` (ms). -/
def MIN_PROCESS_INTERVAL : Nat := 200

/-- `TellMeMoreApp.MIN_SAVE_INTERVAL` (ms). -/
def MIN_SAVE_INTERVAL : Nat := 1000

/-- `SubtitleStorageManager.MAX_SUBTITLES`. -/
def MAX_SUBTITLES : Nat := 10000

/-- The mutable fields of `BaseSubtitleObserver` that the
change-processing routine reads and writes. -/
structure ObserverState where
  lastSubtitle : String
  lastProcessTime : Nat
  capturedSubtitles : List String
  subtitleMode : String
  selectedLanguage : String
deriving DecidableEq, Repr

/-- A persisted subtitle entry (`SubtitleEntry` in `subtitleStorage.ts`).
`dateCaptured` is optional here because `TellMeMoreApp.saveSubtitleToStorage`
never sets it at runtime; all other optional fields mirror the interface. -/
structure SubtitleEntry where
  id : String
  text : String
  platform : String
  sessionId : String
  dateCaptured : Option Int
  timestamp : Option Int
  url : Option String
  movieTitle : Option String
  contentType : Option String
  episodeNumber : Option Int
  episodeTitle : Option String
  seasonNumber : Option Int
deriving DecidableEq, Repr

/-- `SubtitleStorageManager.saveSubtitle`: unshift the new entry onto the
newest-first collection, then `splice(MAX_SUBTITLES)` caps the length.
The entry (with its generated id) is supplied fully built. -/
def saveSubtitle (subtitles : List SubtitleEntry) (newSubtitle : SubtitleEntry) :
    List SubtitleEntry :=
  (newSubtitle :: subtitles).take MAX_SUBTITLES

/-- The mutable fields of `TellMeMoreApp` used by `saveSubtitleToStorage`,
together with the persisted entry collection it writes through
`SubtitleStorageManager.saveSubtitle`. -/
structure AppState where
  currentSessionId : Option String
  lastSavedSubtitle : String
  lastSavedTime : Nat
  storage : List SubtitleEntry
deriving DecidableEq, Repr

/-- Environment-derived values `saveSubtitleToStorage` reads when building
an entry: the generated id, detected platform, page url and extracted
movie title. -/
structure SaveContext where
  newId : String
  platform : String
  url : String
  movieTitle : Option String
deriving DecidableEq, Repr

/-- `TellMeMoreApp.saveSubtitleToStorage`: skip when there is no session or
the text is blank; skip an exact normalized duplicate saved less than
`MIN_SAVE_INTERVAL` ago; otherwise build the entry and save it. -/
def saveSubtitleToStorage (app : AppState) (subtitle : String) (now : Nat)
    (ctx : SaveContext) : AppState :=
  match app.currentSessionId with
  | none => app
  | some sid =>
    if jsTrim subtitle = "" then app
    else
      let normalizedSubtitle := normalizeWs subtitle
      if normalizedSubtitle = app.lastSavedSubtitle ∧
          now - app.lastSavedTime < MIN_SAVE_INTERVAL then app
      else
        let entry : SubtitleEntry :=
          { id := ctx.newId
            text := jsTrim subtitle
            platform := ctx.platform
            sessionId := sid
            dateCaptured := none
            timestamp := some (Int.ofNat now)
            url := some ctx.url
            movieTitle := ctx.movieTitle
            contentType := none
            episodeNumber := none
            episodeTitle := none
            seasonNumber := none }
        { app with
            storage := saveSubtitle app.storage entry
            lastSavedSubtitle := normalizedSubtitle
            lastSavedTime := now }

/-- Combined observer + app state: the observer's storage callback is
wired to `TellMeMoreApp.saveSubtitleToStorage` in `initializeComponents`. -/
structure PipeState where
  obs : ObserverState
  app : AppState
deriving DecidableEq, Repr

/-- The buffer update inside `BaseSubtitleObserver.handleNewSubtitle`:
push, then `splice(0, length - 50)` keeps only the last 50 lines. -/
def pushCaptured (buf : List String) (text : String) : List String :=
  let pushed := buf ++ [text]
  if 50 < pushed.length then pushed.drop (pushed.length - 50) else pushed

/-- `BaseSubtitleObserver.handleNewSubtitle` with the storage callback set:
append to the shared capture buffer (bounded at 50) and invoke
`saveSubtitleToStorage`. -/
def handleNewSubtitle (ps : PipeState) (text : String) (now : Nat)
    (ctx : SaveContext) : PipeState :=
  { obs := { ps.obs with capturedSubtitles := pushCaptured ps.obs.capturedSubtitles text }
    app := saveSubtitleToStorage ps.app text now ctx }

/-- `BaseSubtitleObserver.processSubtitleChanges`: mode guard, blank guard,
normalized-duplicate guard, minimum-interval throttle; on acceptance record
the raw text and time and run `handleNewSubtitle`. -/
def processSubtitleChanges (ps : PipeState) (currentText : String) (now : Nat)
    (ctx : SaveContext) : PipeState :=
  if ps.obs.subtitleMode = "Off" then ps
  else if currentText = "" ∨ jsTrim currentText = "" then ps
  else if normalizeWs currentText = normalizeWs ps.obs.lastSubtitle then ps
  else if now - ps.obs.lastProcessTime < MIN_PROCESS_INTERVAL then ps
  else
    handleNewSubtitle
      { ps with obs := { ps.obs with lastSubtitle := currentText, lastProcessTime := now } }
      currentText now ctx

/-- The acceptance condition of `processSubtitleChanges`: true exactly when
none of its four skip guards fires. -/
def acceptsCaption (st : ObserverState) (text : String) (now : Nat) : Bool :=
  !(st.subtitleMode = "Off" : Bool) &&
  !((text = "" ∨ jsTrim text = "" : Prop) : Bool) &&
  !(normalizeWs text = normalizeWs st.lastSubtitle : Bool) &&
  !(now - st.lastProcessTime < MIN_PROCESS_INTERVAL : Bool)

/-- One invocation of the change-processing routine as seen by the
pipeline: the extracted caption text, the current time and the
environment values used when the storage callback fires. -/
structure SubtitleEvent where
  text : String
  now : Nat
  ctx : SaveContext
deriving DecidableEq, Repr

/-- Times at which a sequence of processing invocations accepts a caption
(i.e. reaches `handleNewSubtitle`). -/
def acceptedTimes (ps : PipeState) : List SubtitleEvent → List Nat
  | [] => []
  | e :: rest =>
    if acceptsCaption ps.obs e.text e.now then
      e.now :: acceptedTimes (processSubtitleChanges ps e.text e.now e.ctx) rest
    else
      acceptedTimes (processSubtitleChanges ps e.text e.now e.ctx) rest

/-- A viewing session (`SubtitleSession` in `subtitleStorage.ts`). -/
structure SubtitleSession where
  id : String
  platform : String
  startTime : Nat
  endTime : Option Nat
  url : String
  movieTitle : Option String
  subtitleCount : Nat
deriving DecidableEq, Repr

/-- `SubtitleStorageManager.endSession`: find the first session whose id
matches (`findIndex`), set its `endTime` to now and its `subtitleCount`
to the number of stored subtitles carrying this session id; a missing id
leaves the list unchanged. -/
def endSession (subtitles : List SubtitleEntry) (sessionId : String) (now : Nat) :
    List SubtitleSession → List SubtitleSession
  | [] => []
  | s :: rest =>
    if s.id = sessionId then
      { s with
          endTime := some now
          subtitleCount :=
            (subtitles.filter (fun e => e.sessionId = sessionId)).length } :: rest
    else
      s :: endSession subtitles sessionId now rest

/-- `SubtitleStorageManager.updateSessionTitle`: find the first session
whose id matches; overwrite its `movieTitle` only when the new title is
truthy (non-empty) and different from the current one. -/
def updateSessionTitle (sessionId : String) (movieTitle : String) :
    List SubtitleSession → List SubtitleSession
  | [] => []
  | s :: rest =>
    if s.id = sessionId then
      if movieTitle ≠ "" ∧ s.movieTitle ≠ some movieTitle then
        { s with movieTitle := some movieTitle } :: rest
      else
        s :: rest
    else
      s :: updateSessionTitle sessionId movieTitle rest

/-- Does `hay` start with `needle` (character lists)? -/
def charsStartsWith : List Char → List Char → Bool
  | _, [] => true
  | [], _ :: _ => false
  | c :: cs, d :: ds => c = d && charsStartsWith cs ds

/-- Does `hay` contain `needle` as a contiguous substring (character lists)? -/
def charsIncludes : List Char → List Char → Bool
  | [], needle => needle.isEmpty
  | c :: cs, needle => charsStartsWith (c :: cs) needle || charsIncludes cs needle

/-- Embeds JavaScript `hay.includes(needle)` on strings. -/
def strIncludes (hay needle : String) : Bool :=
  charsIncludes hay.data needle.data

/-- Options accepted by `SubtitleStorageManager.getSubtitles`; absent
object properties are `none`. -/
structure GetSubtitlesOptions where
  page : Option Nat
  pageSize : Option Nat
  platform : Option String
  search : Option String
  sessionId : Option String
  contentType : Option String
  seasonNumber : Option Int
  episodeNumber : Option Int
deriving DecidableEq, Repr

/-- Result of `getSubtitles`. -/
structure GetSubtitlesResult where
  subtitles : List SubtitleEntry
  totalCount : Nat
  pageCount : Nat
deriving DecidableEq, Repr

/-- `options.page || 1`. -/
def effPage (o : GetSubtitlesOptions) : Nat :=
  match o.page with
  | some p => if p = 0 then 1 else p
  | none => 1

/-- `options.pageSize || 50`. -/
def effPageSize (o : GetSubtitlesOptions) : Nat :=
  match o.pageSize with
  | some n => if n = 0 then 50 else n
  | none => 50

/-- The search filter body in `getSubtitles`: case-insensitive substring
match over `text`, `movieTitle` and `episodeTitle` (an absent title never
matches, mirroring the short-circuit `s.movieTitle && ...`). -/
def matchesSearch (searchTerm : String) (s : SubtitleEntry) : Bool :=
  strIncludes (jsToLower s.text) searchTerm ||
  (match s.movieTitle with
   | some t => strIncludes (jsToLower t) searchTerm
   | none => false) ||
  (match s.episodeTitle with
   | some t => strIncludes (jsToLower t) searchTerm
   | none => false)

/-- `if (options.platform && options.platform !== 'all')` then filter by
platform equality. -/
def applyPlatformFilter (o : GetSubtitlesOptions) (l : List SubtitleEntry) :
    List SubtitleEntry :=
  match o.platform with
  | some p => if p ≠ "" ∧ p ≠ "all" then l.filter (fun s => s.platform = p) else l
  | none => l

/-- `if (options.contentType && options.contentType !== 'all')` then filter
by content-type equality. -/
def applyContentTypeFilter (o : GetSubtitlesOptions) (l : List SubtitleEntry) :
    List SubtitleEntry :=
  match o.contentType with
  | some c => if c ≠ "" ∧ c ≠ "all" then l.filter (fun s => s.contentType = some c) else l
  | none => l

/-- `if (options.seasonNumber && options.seasonNumber > 0)` then filter by
season equality. -/
def applySeasonFilter (o : GetSubtitlesOptions) (l : List SubtitleEntry) :
    List SubtitleEntry :=
  match o.seasonNumber with
  | some n => if n ≠ 0 ∧ 0 < n then l.filter (fun s => s.seasonNumber = some n) else l
  | none => l

/-- `if (options.episodeNumber && options.episodeNumber > 0)` then filter
by episode equality. -/
def applyEpisodeFilter (o : GetSubtitlesOptions) (l : List SubtitleEntry) :
    List SubtitleEntry :=
  match o.episodeNumber with
  | some n => if n ≠ 0 ∧ 0 < n then l.filter (fun s => s.episodeNumber = some n) else l
  | none => l

/-- `if (options.search)` then filter by the lowercased substring search. -/
def applySearchFilter (o : GetSubtitlesOptions) (l : List SubtitleEntry) :
    List SubtitleEntry :=
  match o.search with
  | some search => if search ≠ "" then l.filter (matchesSearch (jsToLower search)) else l
  | none => l

/-- `if (options.sessionId)` then filter by session-id equality. -/
def applySessionFilter (o : GetSubtitlesOptions) (l : List SubtitleEntry) :
    List SubtitleEntry :=
  match o.sessionId with
  | some sid => if sid ≠ "" then l.filter (fun s => s.sessionId = sid) else l
  | none => l

/-- `SubtitleStorageManager.getSubtitles`: sequentially apply the platform,
content-type, season, episode, search and session filters (each guarded by
the truthiness checks of the source, factored out above in source order),
then paginate with `slice(startIndex, endIndex)` and report
`Math.ceil(totalCount / pageSize)` as the page count. -/
def getSubtitles (o : GetSubtitlesOptions) (allSubtitles : List SubtitleEntry) :
    GetSubtitlesResult :=
  let filteredSubtitles :=
    applySessionFilter o (applySearchFilter o (applyEpisodeFilter o
      (applySeasonFilter o (applyContentTypeFilter o (applyPlatformFilter o allSubtitles)))))
  let totalCount := filteredSubtitles.length
  let page := effPage o
  let pageSize := effPageSize o
  let startIndex := (page - 1) * pageSize
  let paginatedSubtitles := (filteredSubtitles.drop startIndex).take pageSize
  let pageCount := (totalCount + pageSize - 1) / pageSize
  { subtitles := paginatedSubtitles, totalCount := totalCount, pageCount := pageCount }

/-- The settings read by `AIResponseService.getSettings` (defaults:
`aiPlatform = "openai"`, empty api key and endpoint). -/
structure AppSettings where
  aiPlatform : String
  apiKey : String
  backendEndpoint : String
deriving DecidableEq, Repr

/-- The JSON body of a backend reply as consumed by `getAIResponse`:
`data.response || data.answer || data.result`. -/
structure ResponseData where
  response : Option String
  answer : Option String
  result : Option String
deriving DecidableEq, Repr

/-- `data.response || data.answer || data.result`: first truthy
(present and non-empty) field, if any. -/
def firstAnswerField (d : ResponseData) : Option String :=
  match d.response with
  | some s => if s ≠ "" then some s else firstOfTwo d
  | none => firstOfTwo d
where
  /-- `data.answer || data.result`. -/
  firstOfTwo (d : ResponseData) : Option String :=
    match d.answer with
    | some s =>
        if s ≠ "" then some s
        else match d.result with
          | some t => if t ≠ "" then some t else none
          | none => none
    | none =>
        match d.result with
        | some t => if t ≠ "" then some t else none
        | none => none

/-- An HTTP response as observed by `getAIResponse`: the `ok` flag,
status code, error body text and parsed JSON answer fields. -/
structure FetchResponse where
  ok : Bool
  status : Nat
  errorText : String
  data : ResponseData
deriving DecidableEq, Repr

/-- Outcome of the single `fetch` call: a response, a network-level
`TypeError`, or an `AbortSignal.timeout` abort. -/
inductive FetchOutcome where
  | response (r : FetchResponse)
  | networkFailure
  | timedOut
deriving DecidableEq, Repr

/-- Result of `getAIResponse`: whether a `fetch` was issued at all, and
either the answer string or the thrown error message. -/
structure AIResult where
  fetched : Bool
  outcome : Except String String
deriving Repr

/-- `AIResponseService.getAIResponse` (current generation, the one that
throws typed errors instead of falling back to random text): configuration
guards before any fetch, then the status-code error taxonomy, then answer
extraction. The fetch outcome is supplied by the `net` oracle. -/
def getAIResponse (_query : String) (_subtitles : List String)
    (settings : AppSettings) (net : FetchOutcome) : AIResult :=
  if settings.backendEndpoint = "" then
    { fetched := false
      outcome := .error "❌ Backend endpoint not configured. Please set up your backend URL in extension settings." }
  else if settings.apiKey = "" ∧ settings.aiPlatform ≠ "ollama" then
    { fetched := false
      outcome := .error ("❌ API key not configured for " ++ settings.aiPlatform ++ ". Please add your API key in extension settings.") }
  else
    match net with
    | .networkFailure =>
        { fetched := true
          outcome := .error "❌ Cannot connect to backend service. Please check your network connection and backend URL." }
    | .timedOut =>
        { fetched := true
          outcome := .error "❌ Backend request timed out. Please try again or check if your backend is running." }
    | .response r =>
        if r.ok = false then
          if r.status = 404 then
            { fetched := true
              outcome := .error "❌ Backend service not found. Please check your backend endpoint URL." }
          else if r.status = 401 ∨ r.status = 403 then
            { fetched := true
              outcome := .error "❌ Invalid API key. Please check your API key in extension settings." }
          else if 500 ≤ r.status then
            { fetched := true
              outcome := .error "❌ Backend server error. Please try again later or contact support." }
          else
            { fetched := true
              outcome := .error ("❌ Backend error (" ++ toString r.status ++ "): " ++ r.errorText) }
        else
          match firstAnswerField r.data with
          | some ans => { fetched := true, outcome := .ok ans }
          | none =>
              { fetched := true
                outcome := .error "❌ Invalid response format from backend. Please check your backend implementation." }

/-- A JSON value, as produced by `JSON.stringify` and consumed by
`JSON.parse`; `stringify`-then-`parse` is modelled as the identity on
this tree, so export/import is studied at the value level. -/
inductive JsonValue where
  | jnull
  | jstr (s : String)
  | jnum (n : Int)
  | jarr (xs : List JsonValue)
  | jobj (fields : List (String × JsonValue))

/-- Look up a field of a JSON object. -/
def JsonValue.getField (j : JsonValue) (name : String) : Option JsonValue :=
  match j with
  | .jobj fields => fields.lookup name
  | _ => none

/-- A present optional field, or nothing: `JSON.stringify` omits
properties whose value is `undefined`. -/
def optField (name : String) : Option JsonValue → List (String × JsonValue)
  | some j => [(name, j)]
  | none => []

/-- Serialization of one `SubtitleEntry` inside the exported JSON:
every defined property appears under its interface name, `undefined`
properties are omitted. -/
def entryToJson (e : SubtitleEntry) : JsonValue :=
  .jobj
    ([("id", .jstr e.id), ("text", .jstr e.text), ("platform", .jstr e.platform),
      ("sessionId", .jstr e.sessionId)]
      ++ optField "dateCaptured" (e.dateCaptured.map fun n => .jnum n)
      ++ optField "timestamp" (e.timestamp.map fun n => .jnum n)
      ++ optField "url" (e.url.map fun s => .jstr s)
      ++ optField "movieTitle" (e.movieTitle.map fun s => .jstr s)
      ++ optField "contentType" (e.contentType.map fun s => .jstr s)
      ++ optField "episodeNumber" (e.episodeNumber.map fun n => .jnum n)
      ++ optField "episodeTitle" (e.episodeTitle.map fun s => .jstr s)
      ++ optField "seasonNumber" (e.seasonNumber.map fun n => .jnum n))

/-- First occurrences of a list's elements, in order: `[...new Set(xs)]`. -/
def uniqueFirst (l : List String) : List String :=
  l.foldl (fun acc x => if x ∈ acc then acc else acc ++ [x]) []

/-- `SubtitleStorageManager.exportSubtitles('json')` as a JSON value:
`{ subtitles, exportDate, metadata }` where the metadata lists the total
count and the distinct platforms, content types and movie titles
(`filter(Boolean)` drops `undefined` and empty strings). -/
def exportSubtitlesJson (subtitles : List SubtitleEntry) (exportDate : String) :
    JsonValue :=
  .jobj
    [("subtitles", .jarr (subtitles.map entryToJson)),
     ("exportDate", .jstr exportDate),
     ("metadata", .jobj
       [("totalSubtitles", .jnum subtitles.length),
        ("platforms", .jarr ((uniqueFirst (subtitles.map fun s => s.platform)).map fun s => .jstr s)),
        ("contentTypes", .jarr ((uniqueFirst ((subtitles.filterMap fun s => s.contentType).filter fun t => t ≠ "")).map fun s => .jstr s)),
        ("movies", .jarr ((uniqueFirst ((subtitles.filterMap fun s => s.movieTitle).filter fun t => t ≠ "")).map fun s => .jstr s))])]

/-- Decode a string-valued JSON field. -/
def JsonValue.asStr : JsonValue → Option String
  | .jstr s => some s
  | _ => none

/-- Decode a numeric JSON field. -/
def JsonValue.asNum : JsonValue → Option Int
  | .jnum n => some n
  | _ => none

/-- Modelled from the spec: re-importing an export "parses the exported
JSON and takes its entry list"; this decodes one entry object back into a
`SubtitleEntry` (the repository itself ships no import routine). -/
def entryFromJson (j : JsonValue) : Option SubtitleEntry :=
  match (j.getField "id").bind JsonValue.asStr,
        (j.getField "text").bind JsonValue.asStr,
        (j.getField "platform").bind JsonValue.asStr,
        (j.getField "sessionId").bind JsonValue.asStr with
  | some id, some text, some platform, some sessionId =>
      some
        { id := id, text := text, platform := platform, sessionId := sessionId
          dateCaptured := (j.getField "dateCaptured").bind JsonValue.asNum
          timestamp := (j.getField "timestamp").bind JsonValue.asNum
          url := (j.getField "url").bind JsonValue.asStr
          movieTitle := (j.getField "movieTitle").bind JsonValue.asStr
          contentType := (j.getField "contentType").bind JsonValue.asStr
          episodeNumber := (j.getField "episodeNumber").bind JsonValue.asNum
          episodeTitle := (j.getField "episodeTitle").bind JsonValue.asStr
          seasonNumber := (j.getField "seasonNumber").bind JsonValue.asNum }
  | _, _, _, _ => none

/-- Modelled from the spec: re-import parses the exported JSON and takes
its entry list — read the `subtitles` array and decode every element. -/
def importSubtitles (j : JsonValue) : Option (List SubtitleEntry) :=
  match j.getField "subtitles" with
  | some (.jarr xs) => xs.mapM entryFromJson
  | _ => none

/-- The claim side of C1's comparison: "case/whitespace-normalized" text,
i.e. whitespace normalization followed by case folding. The source never
folds case, which is what the counterexample below exploits. -/
def caseWsNormalize (s : String) : String :=
  jsToLower (normalizeWs s)

/-- Total form of the platform filter: entries kept by `applyPlatformFilter`. -/
def platformPred (o : GetSubtitlesOptions) (s : SubtitleEntry) : Bool :=
  match o.platform with
  | some p => if p ≠ "" ∧ p ≠ "all" then s.platform = p else true
  | none => true

/-- Total form of the content-type filter. -/
def contentTypePred (o : GetSubtitlesOptions) (s : SubtitleEntry) : Bool :=
  match o.contentType with
  | some c => if c ≠ "" ∧ c ≠ "all" then s.contentType = some c else true
  | none => true

/-- Total form of the season filter. -/
def seasonPred (o : GetSubtitlesOptions) (s : SubtitleEntry) : Bool :=
  match o.seasonNumber with
  | some n => if n ≠ 0 ∧ 0 < n then s.seasonNumber = some n else true
  | none => true

/-- Total form of the episode filter. -/
def episodePred (o : GetSubtitlesOptions) (s : SubtitleEntry) : Bool :=
  match o.episodeNumber with
  | some n => if n ≠ 0 ∧ 0 < n then s.episodeNumber = some n else true
  | none => true

/-- Total form of the search filter. -/
def searchPred (o : GetSubtitlesOptions) (s : SubtitleEntry) : Bool :=
  match o.search with
  | some search => if search ≠ "" then matchesSearch (jsToLower search) s else true
  | none => true

/-- Total form of the session filter. -/
def sessionPred (o : GetSubtitlesOptions) (s : SubtitleEntry) : Bool :=
  match o.sessionId with
  | some sid => if sid ≠ "" then s.sessionId = sid else true
  | none => true

/-- Entries satisfying every filter that `getSubtitles` actually applies:
a filter is skipped when its value is absent, `'all'`, the empty string
(falsy), or a non-positive season/episode number. -/
def matchesFilters (o : GetSubtitlesOptions) (s : SubtitleEntry) : Bool :=
  platformPred o s && contentTypePred o s && seasonPred o s &&
  episodePred o s && searchPred o s && sessionPred o s

/-- Entries satisfying every supplied filter exactly as claim C10 words it:
a filter is skipped only when its value is `'all'`, absent, or a
non-positive season/episode number — an empty string still counts as a
supplied filter here. -/
def claimMatches (o : GetSubtitlesOptions) (s : SubtitleEntry) : Bool :=
  (match o.platform with
   | some p => if p ≠ "all" then (s.platform = p : Bool) else true
   | none => true) &&
  (match o.contentType with
   | some c => if c ≠ "all" then (s.contentType = some c : Bool) else true
   | none => true) &&
  (match o.seasonNumber with
   | some n => if 0 < n then (s.seasonNumber = some n : Bool) else true
   | none => true) &&
  (match o.episodeNumber with
   | some n => if 0 < n then (s.episodeNumber = some n : Bool) else true
   | none => true) &&
  (match o.search with
   | some search => matchesSearch (jsToLower search) s
   | none => true) &&
  (match o.sessionId with
   | some sid => (s.sessionId = sid : Bool)
   | none => true)

/-- Shared concrete observer state used by the witnesses below. -/
def sampleObs : ObserverState :=
  { lastSubtitle := "", lastProcessTime := 0, capturedSubtitles := [],
    subtitleMode := "On", selectedLanguage := "English" }

/-- Shared concrete app state used by the witnesses below. -/
def sampleApp : AppState :=
  { currentSessionId := some "sess1", lastSavedSubtitle := "", lastSavedTime := 0,
    storage := [] }

/-- Shared concrete save context used by the witnesses below. -/
def sampleCtx : SaveContext :=
  { newId := "id1", platform := "netflix", url := "https://example.test/watch/1",
    movieTitle := some "Some Movie" }

/-- Shared concrete entry used by witnesses and counterexamples. -/
def sampleEntry : SubtitleEntry :=
  { id := "e1", text := "Hello.", platform := "netflix", sessionId := "sess1",
    dateCaptured := none, timestamp := some 1000,
    url := some "https://example.test/watch/1", movieTitle := some "Some Movie",
    contentType := none, episodeNumber := none, episodeTitle := none,
    seasonNumber := none }

theorem processSubtitleChanges_eq (ps : PipeState) (t : String) (now : Nat)
    (ctx : SaveContext) :
    processSubtitleChanges ps t now ctx =
      if acceptsCaption ps.obs t now then
        handleNewSubtitle
          { ps with obs := { ps.obs with lastSubtitle := t, lastProcessTime := now } }
          t now ctx
      else ps := by
  unfold processSubtitleChanges acceptsCaption
  by_cases h1 : ps.obs.subtitleMode = "Off" <;>
    by_cases h2 : t = "" ∨ jsTrim t = "" <;>
      by_cases h3 : normalizeWs t = normalizeWs ps.obs.lastSubtitle <;>
        by_cases h4 : now - ps.obs.lastProcessTime < MIN_PROCESS_INTERVAL <;>
          simp [h1, h2, h3, h4]

theorem process_not_accepted {ps : PipeState} {t : String} {now : Nat}
    (ctx : SaveContext) (h : acceptsCaption ps.obs t now = false) :
    processSubtitleChanges ps t now ctx = ps := by
  rw [processSubtitleChanges_eq, h]
  simp

theorem process_accepted {ps : PipeState} {t : String} {now : Nat}
    (ctx : SaveContext) (h : acceptsCaption ps.obs t now = true) :
    processSubtitleChanges ps t now ctx =
      handleNewSubtitle
        { ps with obs := { ps.obs with lastSubtitle := t, lastProcessTime := now } }
        t now ctx := by
  rw [processSubtitleChanges_eq, h]
  simp

theorem pushCaptured_spec (buf : List String) (text : String) (h : buf.length ≤ 50) :
    (pushCaptured buf text).length ≤ 50 ∧
    (buf.length = 50 → pushCaptured buf text = buf.drop 1 ++ [text]) ∧
    (buf.length < 50 → pushCaptured buf text = buf ++ [text]) := by
  unfold pushCaptured
  by_cases h50 : 50 < (buf ++ [text]).length
  · have hlen : buf.length = 50 := by
      simp only [List.length_append, List.length_singleton] at h50
      omega
    simp only [if_pos h50]
    refine ⟨?_, fun _ => ?_, fun hlt => absurd hlen (by omega)⟩
    · simp [hlen]
    · have h1 : (buf ++ [text]).length - 50 = 1 := by simp [hlen]
      rw [h1, List.drop_append_of_le_length (by omega)]
  · have hlen : buf.length < 50 := by
      simp only [List.length_append, List.length_singleton] at h50
      omega
    simp only [if_neg h50]
    exact ⟨by simp only [List.length_append, List.length_singleton]; omega,
           fun heq => absurd heq (by omega), fun _ => trivial⟩

/-- C3: starting from a capture buffer of at most 50 lines,
`handleNewSubtitle` keeps it at most 50; a full buffer of exactly 50 lines
evicts only its oldest line and appends the new one last (most-recent-last
order preserved), while a non-full buffer just appends. -/
theorem handleNewSubtitle_buffer_bound (ps : PipeState) (text : String) (now : Nat)
    (ctx : SaveContext) (h : ps.obs.capturedSubtitles.length ≤ 50) :
    (handleNewSubtitle ps text now ctx).obs.capturedSubtitles.length ≤ 50 ∧
    (ps.obs.capturedSubtitles.length = 50 →
      (handleNewSubtitle ps text now ctx).obs.capturedSubtitles =
        ps.obs.capturedSubtitles.drop 1 ++ [text]) ∧
    (ps.obs.capturedSubtitles.length < 50 →
      (handleNewSubtitle ps text now ctx).obs.capturedSubtitles =
        ps.obs.capturedSubtitles ++ [text]) :=
  pushCaptured_spec ps.obs.capturedSubtitles text h

/-- Witness for C3 at a concrete full buffer of 50 lines. -/
theorem handleNewSubtitle_buffer_bound_witness :
    ((List.replicate 50 "line").length ≤ 50 ∧ (List.replicate 50 "line").length = 50) ∧
    ((handleNewSubtitle
        ⟨{ sampleObs with capturedSubtitles := List.replicate 50 "line" }, sampleApp⟩
        "next" 1000 sampleCtx).obs.capturedSubtitles.length ≤ 50 ∧
     (handleNewSubtitle
        ⟨{ sampleObs with capturedSubtitles := List.replicate 50 "line" }, sampleApp⟩
        "next" 1000 sampleCtx).obs.capturedSubtitles =
       (List.replicate 50 "line").drop 1 ++ ["next"]) :=
  ⟨⟨by decide, by decide⟩,
   ⟨(handleNewSubtitle_buffer_bound
       ⟨{ sampleObs with capturedSubtitles := List.replicate 50 "line" }, sampleApp⟩
       "next" 1000 sampleCtx (by decide)).1,
    (handleNewSubtitle_buffer_bound
       ⟨{ sampleObs with capturedSubtitles := List.replicate 50 "line" }, sampleApp⟩
       "next" 1000 sampleCtx (by decide)).2.1 (by decide)⟩⟩

/-- C4: after every `saveSubtitle` call the persisted collection holds at
most `MAX_SUBTITLES` (10000) entries; the new entry sits at the front and
the surviving previous entries keep their newest-first order (only those
beyond position 9999 — the oldest — are dropped); while the collection is
below the cap nothing is evicted at all. -/
theorem saveSubtitle_cap_and_order (l : List SubtitleEntry) (e : SubtitleEntry) :
    (saveSubtitle l e).length ≤ MAX_SUBTITLES ∧
    saveSubtitle l e = e :: l.take 9999 ∧
    (l.length ≤ 9999 → saveSubtitle l e = e :: l) := by
  refine ⟨?_, ?_, ?_⟩
  · simp only [saveSubtitle]
    exact List.length_take_le MAX_SUBTITLES (e :: l)
  · show (e :: l).take MAX_SUBTITLES = _
    rw [show MAX_SUBTITLES = 9999 + 1 from rfl, List.take_succ_cons]
  · intro h
    show (e :: l).take MAX_SUBTITLES = _
    exact List.take_of_length_le (by simp [MAX_SUBTITLES]; omega)

/-- Witness for C4 at a concrete one-entry collection. -/
theorem saveSubtitle_cap_and_order_witness :
    ([sampleEntry].length ≤ 9999) ∧
    ((saveSubtitle [sampleEntry] sampleEntry).length ≤ MAX_SUBTITLES ∧
     saveSubtitle [sampleEntry] sampleEntry = sampleEntry :: [sampleEntry]) :=
  ⟨by decide,
   ⟨(saveSubtitle_cap_and_order [sampleEntry] sampleEntry).1,
    (saveSubtitle_cap_and_order [sampleEntry] sampleEntry).2.2 (by decide)⟩⟩

/-- C5: along any sequence of change-processing invocations, starting from
the recorded time of the previously accepted caption, each accepted
caption comes at least `MIN_PROCESS_INTERVAL` (200 ms) after the previous
accepted one — regardless of how often the mutation/poll sources invoke
the routine. -/
theorem acceptedTimes_min_interval (ps : PipeState) (events : List SubtitleEvent) :
    List.Chain (fun a b => a + MIN_PROCESS_INTERVAL ≤ b)
      ps.obs.lastProcessTime (acceptedTimes ps events) := by
  induction events generalizing ps with
  | nil => exact List.Chain.nil
  | cons e rest ih =>
    unfold acceptedTimes
    by_cases hacc : acceptsCaption ps.obs e.text e.now
    · rw [if_pos hacc]
      have hprops := hacc
      simp only [acceptsCaption, Bool.and_eq_true, Bool.not_eq_true', decide_eq_false_iff_not] at hprops
      have hgap : ps.obs.lastProcessTime + MIN_PROCESS_INTERVAL ≤ e.now := by
        have h4 := hprops.2
        unfold MIN_PROCESS_INTERVAL at h4 ⊢
        omega
      have hlast : (processSubtitleChanges ps e.text e.now e.ctx).obs.lastProcessTime = e.now := by
        rw [process_accepted e.ctx hacc]
        rfl
      have h2 := ih (processSubtitleChanges ps e.text e.now e.ctx)
      rw [hlast] at h2
      exact List.Chain.cons hgap h2
    · rw [if_neg hacc]
      have hps : processSubtitleChanges ps e.text e.now e.ctx = ps :=
        process_not_accepted e.ctx (by simpa using hacc)
      rw [hps]
      exact ih ps

theorem pushCaptured_growth (buf : List String) (t : String) :
    (pushCaptured buf t).length ≤ buf.length + 1 := by
  have h : pushCaptured buf t =
      if 50 < (buf ++ [t]).length then List.drop ((buf ++ [t]).length - 50) (buf ++ [t])
      else buf ++ [t] := rfl
  rw [h]
  split <;> simp [List.length_drop, List.length_append]

theorem saveSubtitleToStorage_growth (app : AppState) (t : String) (now : Nat)
    (ctx : SaveContext) :
    (saveSubtitleToStorage app t now ctx).storage.length ≤ app.storage.length + 1 := by
  unfold saveSubtitleToStorage
  rcases happ : app.currentSessionId with _ | sid
  · simp
  · by_cases h1 : jsTrim t = ""
    · simp [h1]
    · simp only [if_neg h1]
      by_cases h2 : normalizeWs t = app.lastSavedSubtitle ∧
          now - app.lastSavedTime < MIN_SAVE_INTERVAL
      · simp [h2]
      · simp only [if_neg h2, saveSubtitle, List.length_take, List.length_cons]
        omega

theorem processSubtitleChanges_growth (ps : PipeState) (t : String) (now : Nat)
    (c : SaveContext) :
    (processSubtitleChanges ps t now c).app.storage.length ≤ ps.app.storage.length + 1 ∧
    (processSubtitleChanges ps t now c).obs.capturedSubtitles.length ≤
      ps.obs.capturedSubtitles.length + 1 := by
  rw [processSubtitleChanges_eq]
  by_cases hacc : acceptsCaption ps.obs t now
  · rw [if_pos hacc]
    exact ⟨saveSubtitleToStorage_growth _ _ _ _, pushCaptured_growth _ _⟩
  · rw [if_neg hacc]
    omega

/-- Counterexample to C1 as stated: two consecutive captions that are
equal after case/whitespace normalization but differ in letter case are
both accepted — a second `SubtitleEntry` is written to storage and the
capture buffer receives a second line. -/
theorem subtitle_dedup_case_counterexample :
    caseWsNormalize "Hello." = caseWsNormalize "hello." ∧
    (processSubtitleChanges
        (processSubtitleChanges ⟨sampleObs, sampleApp⟩ "Hello." 1000 sampleCtx)
        "hello." 2000 { sampleCtx with newId := "id2" }).app.storage.length = 2 ∧
    (processSubtitleChanges
        (processSubtitleChanges ⟨sampleObs, sampleApp⟩ "Hello." 1000 sampleCtx)
        "hello." 2000 { sampleCtx with newId := "id2" }).obs.capturedSubtitles =
      ["Hello.", "hello."] := by
  refine ⟨by decide, by decide, by decide⟩

/-- C1 (amended): de-duplication compares the exact whitespace-normalized
texts, case-sensitively (no case folding). For two consecutively processed
captions whose whitespace-normalized texts are equal, at most one entry is
written and the capture buffer grows by at most one line — in particular,
when the first caption is accepted, processing the second changes nothing
at all — and an empty or whitespace-only caption is always dropped
outright. -/
theorem subtitle_dedup_amended (ps : PipeState) (t1 t2 t3 : String)
    (n1 n2 n3 : Nat) (c1 c2 c3 : SaveContext)
    (hnorm : normalizeWs t1 = normalizeWs t2) (hblank : jsTrim t3 = "") :
    (acceptsCaption ps.obs t1 n1 = true →
      processSubtitleChanges (processSubtitleChanges ps t1 n1 c1) t2 n2 c2 =
        processSubtitleChanges ps t1 n1 c1) ∧
    (processSubtitleChanges (processSubtitleChanges ps t1 n1 c1) t2 n2 c2).app.storage.length ≤
      ps.app.storage.length + 1 ∧
    (processSubtitleChanges
        (processSubtitleChanges ps t1 n1 c1) t2 n2 c2).obs.capturedSubtitles.length ≤
      ps.obs.capturedSubtitles.length + 1 ∧
    processSubtitleChanges ps t3 n3 c3 = ps := by
  have hfirst : acceptsCaption ps.obs t1 n1 = true →
      processSubtitleChanges (processSubtitleChanges ps t1 n1 c1) t2 n2 c2 =
        processSubtitleChanges ps t1 n1 c1 := by
    intro hacc
    have hps1 : (processSubtitleChanges ps t1 n1 c1).obs.lastSubtitle = t1 := by
      rw [process_accepted c1 hacc]
      rfl
    apply process_not_accepted
    simp only [acceptsCaption, hps1, ← hnorm]
    simp
  refine ⟨hfirst, ?_, ?_, ?_⟩
  · by_cases hacc : acceptsCaption ps.obs t1 n1
    · rw [hfirst hacc]
      exact (processSubtitleChanges_growth ps t1 n1 c1).1
    · rw [process_not_accepted c1 (by simpa using hacc)]
      exact (processSubtitleChanges_growth ps t2 n2 c2).1
  · by_cases hacc : acceptsCaption ps.obs t1 n1
    · rw [hfirst hacc]
      exact (processSubtitleChanges_growth ps t1 n1 c1).2
    · rw [process_not_accepted c1 (by simpa using hacc)]
      exact (processSubtitleChanges_growth ps t2 n2 c2).2
  · unfold processSubtitleChanges
    by_cases h1 : ps.obs.subtitleMode = "Off"
    · simp [h1]
    · simp [h1, hblank]

/-- Witness for C1 (amended) at concrete captions: a re-spaced duplicate is
dropped after an accepted caption, and a whitespace-only caption is
dropped from the initial state. -/
theorem subtitle_dedup_amended_witness :
    (normalizeWs "Hi  there" = normalizeWs "Hi there" ∧
     jsTrim "   " = "" ∧
     acceptsCaption sampleObs "Hi  there" 1000 = true) ∧
    (processSubtitleChanges
        (processSubtitleChanges ⟨sampleObs, sampleApp⟩ "Hi  there" 1000 sampleCtx)
        "Hi there" 2000 sampleCtx =
      processSubtitleChanges ⟨sampleObs, sampleApp⟩ "Hi  there" 1000 sampleCtx) ∧
    processSubtitleChanges ⟨sampleObs, sampleApp⟩ "   " 3000 sampleCtx =
      ⟨sampleObs, sampleApp⟩ :=
  ⟨⟨by decide, by decide, by decide⟩,
   (subtitle_dedup_amended ⟨sampleObs, sampleApp⟩ "Hi  there" "Hi there" "   "
      1000 2000 3000 sampleCtx sampleCtx sampleCtx (by decide) (by decide)).1
     (by decide),
   (subtitle_dedup_amended ⟨sampleObs, sampleApp⟩ "Hi  there" "Hi there" "   "
      1000 2000 3000 sampleCtx sampleCtx sampleCtx (by decide) (by decide)).2.2.2⟩

/-- C2: with an unset (empty) backend endpoint, `getAIResponse` rejects
with the user-displayable "not configured" error and issues no fetch at
all, whatever the network would have answered. -/
theorem getAIResponse_not_configured (q : String) (subs : List String)
    (settings : AppSettings) (net : FetchOutcome)
    (h : settings.backendEndpoint = "") :
    (getAIResponse q subs settings net).fetched = false ∧
    (getAIResponse q subs settings net).outcome =
      .error "❌ Backend endpoint not configured. Please set up your backend URL in extension settings." := by
  unfold getAIResponse
  rw [if_pos h]
  exact ⟨rfl, rfl⟩

/-- Witness for C2 at concrete empty settings. -/
theorem getAIResponse_not_configured_witness :
    ({ aiPlatform := "openai", apiKey := "", backendEndpoint := "" } : AppSettings).backendEndpoint = "" ∧
    ((getAIResponse "What is happening?" ["a line"]
        { aiPlatform := "openai", apiKey := "", backendEndpoint := "" }
        .networkFailure).fetched = false ∧
     (getAIResponse "What is happening?" ["a line"]
        { aiPlatform := "openai", apiKey := "", backendEndpoint := "" }
        .networkFailure).outcome =
       .error "❌ Backend endpoint not configured. Please set up your backend URL in extension settings.") :=
  ⟨rfl, getAIResponse_not_configured "What is happening?" ["a line"]
    { aiPlatform := "openai", apiKey := "", backendEndpoint := "" } .networkFailure rfl⟩

theorem authMsg_ne_backendErrMsg (s : String) :
    ("❌ Invalid API key. Please check your API key in extension settings." : String) ≠
      "❌ Backend error (" ++ s := by
  intro h
  have hd : ("❌ Invalid API key. Please check your API key in extension settings." : String).data =
      ("❌ Backend error (" : String).data ++ s.data := by
    rw [h, String.data_append]
  have h17 := congrArg (List.take 17) hd
  rw [List.take_append_of_le_length (by decide)] at h17
  exact absurd h17 (by decide)

/-- C8: a 401 backend response makes `getAIResponse` reject with the
auth-specific invalid-api-key message, and that message differs from the
generic backend-error message produced for any other non-2xx status that
is not 404/403 and below 500, whatever the response body text. -/
theorem getAIResponse_auth_error (q : String) (subs : List String)
    (settings : AppSettings) (r r2 : FetchResponse)
    (hep : settings.backendEndpoint ≠ "") (hkey : settings.apiKey ≠ "")
    (hok : r.ok = false) (hst : r.status = 401)
    (hok2 : r2.ok = false) (h404 : r2.status ≠ 404) (h401 : r2.status ≠ 401)
    (h403 : r2.status ≠ 403) (h500 : r2.status < 500) :
    (getAIResponse q subs settings (.response r)).outcome =
      .error "❌ Invalid API key. Please check your API key in extension settings." ∧
    (getAIResponse q subs settings (.response r2)).outcome =
      .error ("❌ Backend error (" ++ toString r2.status ++ "): " ++ r2.errorText) ∧
    ("❌ Invalid API key. Please check your API key in extension settings." : String) ≠
      "❌ Backend error (" ++ toString r2.status ++ "): " ++ r2.errorText := by
  have hkeyGuard : ¬(settings.apiKey = "" ∧ settings.aiPlatform ≠ "ollama") := by
    intro hcontra
    exact hkey hcontra.1
  refine ⟨?_, ?_, ?_⟩
  · unfold getAIResponse
    rw [if_neg hep, if_neg hkeyGuard]
    simp [hok, hst]
  · unfold getAIResponse
    rw [if_neg hep, if_neg hkeyGuard]
    have hnot500 : ¬(500 ≤ r2.status) := by omega
    simp [hok2, h404, h401, h403, hnot500]
  · rw [String.append_assoc, String.append_assoc]
    exact authMsg_ne_backendErrMsg _

/-- Witness for C8 at a concrete 401 response and a concrete generic 418
response. -/
theorem getAIResponse_auth_error_witness :
    (({ aiPlatform := "openai", apiKey := "sk-key", backendEndpoint := "https://backend.test" } : AppSettings).backendEndpoint ≠ "" ∧
     ({ aiPlatform := "openai", apiKey := "sk-key", backendEndpoint := "https://backend.test" } : AppSettings).apiKey ≠ "" ∧
     ({ ok := false, status := 401, errorText := "unauthorized", data := ⟨none, none, none⟩ } : FetchResponse).ok = false ∧
     ({ ok := false, status := 418, errorText := "teapot", data := ⟨none, none, none⟩ } : FetchResponse).status = 418) ∧
    ((getAIResponse "Why?" []
        { aiPlatform := "openai", apiKey := "sk-key", backendEndpoint := "https://backend.test" }
        (.response { ok := false, status := 401, errorText := "unauthorized", data := ⟨none, none, none⟩ })).outcome =
      .error "❌ Invalid API key. Please check your API key in extension settings." ∧
     (getAIResponse "Why?" []
        { aiPlatform := "openai", apiKey := "sk-key", backendEndpoint := "https://backend.test" }
        (.response { ok := false, status := 418, errorText := "teapot", data := ⟨none, none, none⟩ })).outcome =
      .error ("❌ Backend error (" ++ toString (418 : Nat) ++ "): " ++ "teapot") ∧
     ("❌ Invalid API key. Please check your API key in extension settings." : String) ≠
      "❌ Backend error (" ++ toString (418 : Nat) ++ "): " ++ "teapot") :=
  ⟨⟨by decide, by decide, rfl, rfl⟩,
   getAIResponse_auth_error "Why?" []
     { aiPlatform := "openai", apiKey := "sk-key", backendEndpoint := "https://backend.test" }
     { ok := false, status := 401, errorText := "unauthorized", data := ⟨none, none, none⟩ }
     { ok := false, status := 418, errorText := "teapot", data := ⟨none, none, none⟩ }
     (by decide) (by decide) rfl rfl rfl (by decide) (by decide) (by decide) (by decide)⟩

/-- C6: when the sessions list splits as `pre ++ s :: post` with `s` the
first session carrying the requested id, `endSession` sets that session's
`endTime` to the call time and its `subtitleCount` to the number of stored
entries whose `sessionId` matches, and every other session — before and
after — is returned unchanged. -/
theorem endSession_spec (pre post : List SubtitleSession) (s : SubtitleSession)
    (subtitles : List SubtitleEntry) (sessionId : String) (now : Nat)
    (hid : s.id = sessionId) (hpre : ∀ t ∈ pre, t.id ≠ sessionId) :
    endSession subtitles sessionId now (pre ++ s :: post) =
      pre ++
        { s with
            endTime := some now
            subtitleCount :=
              (subtitles.filter (fun e => e.sessionId = sessionId)).length } :: post := by
  induction pre with
  | nil => simp [endSession, hid]
  | cons a as ih =>
    have ha : a.id ≠ sessionId := hpre a (by simp)
    have hrest : ∀ t ∈ as, t.id ≠ sessionId := fun t ht => hpre t (by simp [ht])
    simp [endSession, ha, ih hrest]

/-- Shared concrete sessions used by the C6/C7 witnesses. -/
def sessionA : SubtitleSession :=
  { id := "sessA", platform := "netflix", startTime := 10, endTime := none,
    url := "https://example.test/watch/1", movieTitle := some "First", subtitleCount := 0 }

/-- Second concrete session; its id is the one C6's and C7's witnesses target. -/
def sessionB : SubtitleSession :=
  { id := "sessB", platform := "netflix", startTime := 20, endTime := none,
    url := "https://example.test/watch/2", movieTitle := some "Old Title", subtitleCount := 0 }

/-- Third concrete session, untouched by the witness calls. -/
def sessionC : SubtitleSession :=
  { id := "sessC", platform := "disney", startTime := 30, endTime := none,
    url := "https://example.test/watch/3", movieTitle := none, subtitleCount := 0 }

/-- Witness for C6: ending `sessB` counts exactly the two entries tagged
with it and leaves `sessA`/`sessC` untouched. -/
theorem endSession_spec_witness :
    (sessionB.id = "sessB" ∧ ∀ t ∈ [sessionA], t.id ≠ "sessB") ∧
    endSession
        [{ sampleEntry with id := "e1", sessionId := "sessB" },
         { sampleEntry with id := "e2", sessionId := "other" },
         { sampleEntry with id := "e3", sessionId := "sessB" }]
        "sessB" 5000 ([sessionA] ++ sessionB :: [sessionC]) =
      [sessionA] ++
        { sessionB with endTime := some 5000, subtitleCount := 2 } :: [sessionC] := by
  refine ⟨⟨rfl, by decide⟩, ?_⟩
  have h := endSession_spec [sessionA] [sessionC] sessionB
    [{ sampleEntry with id := "e1", sessionId := "sessB" },
     { sampleEntry with id := "e2", sessionId := "other" },
     { sampleEntry with id := "e3", sessionId := "sessB" }]
    "sessB" 5000 rfl (by decide)
  rw [h]
  decide

theorem updateSessionTitle_idem (sessionId t : String) (l : List SubtitleSession) :
    updateSessionTitle sessionId t (updateSessionTitle sessionId t l) =
      updateSessionTitle sessionId t l := by
  induction l with
  | nil => rfl
  | cons s rest ih =>
    by_cases hs : s.id = sessionId
    · by_cases hcond : t ≠ "" ∧ s.movieTitle ≠ some t
      · simp [updateSessionTitle, hs, hcond]
      · simp [updateSessionTitle, hs, hcond]
    · simp [updateSessionTitle, hs, ih]

/-- C7: on the first session carrying the requested id, `updateSessionTitle`
is a no-op when the new title is empty or equals the current title, and
overwrites `movieTitle` when the new title is non-empty and different; in
every case running the same update twice equals running it once, so a
repeated update with the same non-empty title is a no-op. -/
theorem updateSessionTitle_spec (pre post : List SubtitleSession)
    (s : SubtitleSession) (sessionId t : String)
    (hid : s.id = sessionId) (hpre : ∀ u ∈ pre, u.id ≠ sessionId) :
    ((t = "" ∨ s.movieTitle = some t) →
      updateSessionTitle sessionId t (pre ++ s :: post) = pre ++ s :: post) ∧
    (t ≠ "" → s.movieTitle ≠ some t →
      updateSessionTitle sessionId t (pre ++ s :: post) =
        pre ++ { s with movieTitle := some t } :: post) ∧
    updateSessionTitle sessionId t (updateSessionTitle sessionId t (pre ++ s :: post)) =
      updateSessionTitle sessionId t (pre ++ s :: post) := by
  refine ⟨?_, ?_, updateSessionTitle_idem sessionId t (pre ++ s :: post)⟩
  · intro hnoop
    have hcond : ¬(t ≠ "" ∧ s.movieTitle ≠ some t) := by
      rcases hnoop with h | h
      · intro hc; exact hc.1 h
      · intro hc; exact hc.2 h
    induction pre with
    | nil => simp [updateSessionTitle, hid, hcond]
    | cons a as ih =>
      have ha : a.id ≠ sessionId := hpre a (by simp)
      have hrest : ∀ u ∈ as, u.id ≠ sessionId := fun u hu => hpre u (by simp [hu])
      simp [updateSessionTitle, ha, ih hrest]
  · intro hne hdiff
    have hcond : t ≠ "" ∧ s.movieTitle ≠ some t := ⟨hne, hdiff⟩
    induction pre with
    | nil => simp [updateSessionTitle, hid, hcond]
    | cons a as ih =>
      have ha : a.id ≠ sessionId := hpre a (by simp)
      have hrest : ∀ u ∈ as, u.id ≠ sessionId := fun u hu => hpre u (by simp [hu])
      simp [updateSessionTitle, ha, ih hrest]

/-- Witness for C7 at concrete sessions: the empty title and the current
title are no-ops, a fresh non-empty title overwrites, and updating twice
with the same title equals updating once. -/
theorem updateSessionTitle_spec_witness :
    (sessionB.id = "sessB" ∧ (∀ u ∈ [sessionA], u.id ≠ "sessB") ∧
     ("" = "" ∨ sessionB.movieTitle = some "") ∧
     ("New Title" : String) ≠ "" ∧ sessionB.movieTitle ≠ some "New Title") ∧
    (updateSessionTitle "sessB" "" ([sessionA] ++ sessionB :: [sessionC]) =
       [sessionA] ++ sessionB :: [sessionC] ∧
     updateSessionTitle "sessB" "New Title" ([sessionA] ++ sessionB :: [sessionC]) =
       [sessionA] ++ { sessionB with movieTitle := some "New Title" } :: [sessionC] ∧
     updateSessionTitle "sessB" "New Title"
         (updateSessionTitle "sessB" "New Title" ([sessionA] ++ sessionB :: [sessionC])) =
       updateSessionTitle "sessB" "New Title" ([sessionA] ++ sessionB :: [sessionC])) :=
  ⟨⟨rfl, by decide, Or.inl rfl, by decide, by decide⟩,
   ⟨(updateSessionTitle_spec [sessionA] [sessionC] sessionB "sessB" "" rfl
       (by decide)).1 (Or.inl rfl),
    (updateSessionTitle_spec [sessionA] [sessionC] sessionB "sessB" "New Title" rfl
       (by decide)).2.1 (by decide) (by decide),
    (updateSessionTitle_spec [sessionA] [sessionC] sessionB "sessB" "New Title" rfl
       (by decide)).2.2⟩⟩

theorem getField_jobj (fields : List (String × JsonValue)) (name : String) :
    (JsonValue.jobj fields).getField name = List.lookup name fields := rfl

theorem lookup_cons_ne (name k : String) (v : JsonValue)
    (rest : List (String × JsonValue)) (h : name ≠ k) :
    List.lookup name ((k, v) :: rest) = List.lookup name rest := by
  have hb : (name == k) = false := beq_eq_false_iff_ne.mpr h
  simp [List.lookup, hb]

theorem lookup_optField_ne (name n : String) (o : Option JsonValue)
    (rest : List (String × JsonValue)) (h : name ≠ n) :
    List.lookup name (optField n o ++ rest) = List.lookup name rest := by
  have hb : (name == n) = false := beq_eq_false_iff_ne.mpr h
  cases o <;> simp [optField, List.lookup, hb]

theorem lookup_optField_self (n : String) (o : Option JsonValue)
    (rest : List (String × JsonValue)) (hrest : List.lookup n rest = none) :
    List.lookup n (optField n o ++ rest) = o := by
  cases o <;> simp [optField, List.lookup, hrest]

theorem lookup_optField_last_ne (name n : String) (o : Option JsonValue)
    (h : name ≠ n) : List.lookup name (optField n o) = none := by
  have hb : (name == n) = false := beq_eq_false_iff_ne.mpr h
  cases o <;> simp [optField, List.lookup, hb]

theorem lookup_optField_last_self (n : String) (o : Option JsonValue) :
    List.lookup n (optField n o) = o := by
  cases o <;> simp [optField, List.lookup]

theorem entryToJson_getField_id (e : SubtitleEntry) :
    (entryToJson e).getField "id" = some (.jstr e.id) := rfl

theorem entryToJson_getField_text (e : SubtitleEntry) :
    (entryToJson e).getField "text" = some (.jstr e.text) := rfl

theorem entryToJson_getField_platform (e : SubtitleEntry) :
    (entryToJson e).getField "platform" = some (.jstr e.platform) := rfl

theorem entryToJson_getField_sessionId (e : SubtitleEntry) :
    (entryToJson e).getField "sessionId" = some (.jstr e.sessionId) := rfl

theorem entryToJson_getField_dateCaptured (e : SubtitleEntry) :
    (entryToJson e).getField "dateCaptured" = e.dateCaptured.map fun n => JsonValue.jnum n := by
  simp only [entryToJson, getField_jobj, List.cons_append, List.nil_append, List.append_assoc]
  rw [lookup_cons_ne _ _ _ _ (by decide), lookup_cons_ne _ _ _ _ (by decide),
      lookup_cons_ne _ _ _ _ (by decide), lookup_cons_ne _ _ _ _ (by decide),
      lookup_optField_self]
  rw [lookup_optField_ne _ _ _ _ (by decide), lookup_optField_ne _ _ _ _ (by decide),
      lookup_optField_ne _ _ _ _ (by decide), lookup_optField_ne _ _ _ _ (by decide),
      lookup_optField_ne _ _ _ _ (by decide), lookup_optField_ne _ _ _ _ (by decide),
      lookup_optField_last_ne _ _ _ (by decide)]

theorem entryToJson_getField_timestamp (e : SubtitleEntry) :
    (entryToJson e).getField "timestamp" = e.timestamp.map fun n => JsonValue.jnum n := by
  simp only [entryToJson, getField_jobj, List.cons_append, List.nil_append, List.append_assoc]
  rw [lookup_cons_ne _ _ _ _ (by decide), lookup_cons_ne _ _ _ _ (by decide),
      lookup_cons_ne _ _ _ _ (by decide), lookup_cons_ne _ _ _ _ (by decide),
      lookup_optField_ne _ _ _ _ (by decide), lookup_optField_self]
  rw [lookup_optField_ne _ _ _ _ (by decide), lookup_optField_ne _ _ _ _ (by decide),
      lookup_optField_ne _ _ _ _ (by decide), lookup_optField_ne _ _ _ _ (by decide),
      lookup_optField_ne _ _ _ _ (by decide), lookup_optField_last_ne _ _ _ (by decide)]

theorem entryToJson_getField_url (e : SubtitleEntry) :
    (entryToJson e).getField "url" = e.url.map fun s => JsonValue.jstr s := by
  simp only [entryToJson, getField_jobj, List.cons_append, List.nil_append, List.append_assoc]
  rw [lookup_cons_ne _ _ _ _ (by decide), lookup_cons_ne _ _ _ _ (by decide),
      lookup_cons_ne _ _ _ _ (by decide), lookup_cons_ne _ _ _ _ (by decide),
      lookup_optField_ne _ _ _ _ (by decide), lookup_optField_ne _ _ _ _ (by decide),
      lookup_optField_self]
  rw [lookup_optField_ne _ _ _ _ (by decide), lookup_optField_ne _ _ _ _ (by decide),
      lookup_optField_ne _ _ _ _ (by decide), lookup_optField_ne _ _ _ _ (by decide),
      lookup_optField_last_ne _ _ _ (by decide)]

theorem entryToJson_getField_movieTitle (e : SubtitleEntry) :
    (entryToJson e).getField "movieTitle" = e.movieTitle.map fun s => JsonValue.jstr s := by
  simp only [entryToJson, getField_jobj, List.cons_append, List.nil_append, List.append_assoc]
  rw [lookup_cons_ne _ _ _ _ (by decide), lookup_cons_ne _ _ _ _ (by decide),
      lookup_cons_ne _ _ _ _ (by decide), lookup_cons_ne _ _ _ _ (by decide),
      lookup_optField_ne _ _ _ _ (by decide), lookup_optField_ne _ _ _ _ (by decide),
      lookup_optField_ne _ _ _ _ (by decide), lookup_optField_self]
  rw [lookup_optField_ne _ _ _ _ (by decide), lookup_optField_ne _ _ _ _ (by decide),
      lookup_optField_ne _ _ _ _ (by decide), lookup_optField_last_ne _ _ _ (by decide)]

theorem entryToJson_getField_contentType (e : SubtitleEntry) :
    (entryToJson e).getField "contentType" = e.contentType.map fun s => JsonValue.jstr s := by
  simp only [entryToJson, getField_jobj, List.cons_append, List.nil_append, List.append_assoc]
  rw [lookup_cons_ne _ _ _ _ (by decide), lookup_cons_ne _ _ _ _ (by decide),
      lookup_cons_ne _ _ _ _ (by decide), lookup_cons_ne _ _ _ _ (by decide),
      lookup_optField_ne _ _ _ _ (by decide), lookup_optField_ne _ _ _ _ (by decide),
      lookup_optField_ne _ _ _ _ (by decide), lookup_optField_ne _ _ _ _ (by decide),
      lookup_optField_self]
  rw [lookup_optField_ne _ _ _ _ (by decide), lookup_optField_ne _ _ _ _ (by decide),
      lookup_optField_last_ne _ _ _ (by decide)]

theorem entryToJson_getField_episodeNumber (e : SubtitleEntry) :
    (entryToJson e).getField "episodeNumber" = e.episodeNumber.map fun n => JsonValue.jnum n := by
  simp only [entryToJson, getField_jobj, List.cons_append, List.nil_append, List.append_assoc]
  rw [lookup_cons_ne _ _ _ _ (by decide), lookup_cons_ne _ _ _ _ (by decide),
      lookup_cons_ne _ _ _ _ (by decide), lookup_cons_ne _ _ _ _ (by decide),
      lookup_optField_ne _ _ _ _ (by decide), lookup_optField_ne _ _ _ _ (by decide),
      lookup_optField_ne _ _ _ _ (by decide), lookup_optField_ne _ _ _ _ (by decide),
      lookup_optField_ne _ _ _ _ (by decide), lookup_optField_self]
  rw [lookup_optField_ne _ _ _ _ (by decide), lookup_optField_last_ne _ _ _ (by decide)]

theorem entryToJson_getField_episodeTitle (e : SubtitleEntry) :
    (entryToJson e).getField "episodeTitle" = e.episodeTitle.map fun s => JsonValue.jstr s := by
  simp only [entryToJson, getField_jobj, List.cons_append, List.nil_append, List.append_assoc]
  rw [lookup_cons_ne _ _ _ _ (by decide), lookup_cons_ne _ _ _ _ (by decide),
      lookup_cons_ne _ _ _ _ (by decide), lookup_cons_ne _ _ _ _ (by decide),
      lookup_optField_ne _ _ _ _ (by decide), lookup_optField_ne _ _ _ _ (by decide),
      lookup_optField_ne _ _ _ _ (by decide), lookup_optField_ne _ _ _ _ (by decide),
      lookup_optField_ne _ _ _ _ (by decide), lookup_optField_ne _ _ _ _ (by decide),
      lookup_optField_self]
  rw [lookup_optField_last_ne _ _ _ (by decide)]

theorem entryToJson_getField_seasonNumber (e : SubtitleEntry) :
    (entryToJson e).getField "seasonNumber" = e.seasonNumber.map fun n => JsonValue.jnum n := by
  simp only [entryToJson, getField_jobj, List.cons_append, List.nil_append, List.append_assoc]
  rw [lookup_cons_ne _ _ _ _ (by decide), lookup_cons_ne _ _ _ _ (by decide),
      lookup_cons_ne _ _ _ _ (by decide), lookup_cons_ne _ _ _ _ (by decide),
      lookup_optField_ne _ _ _ _ (by decide), lookup_optField_ne _ _ _ _ (by decide),
      lookup_optField_ne _ _ _ _ (by decide), lookup_optField_ne _ _ _ _ (by decide),
      lookup_optField_ne _ _ _ _ (by decide), lookup_optField_ne _ _ _ _ (by decide),
      lookup_optField_ne _ _ _ _ (by decide), lookup_optField_last_self]

theorem bindMapNum (o : Option Int) :
    (o.map fun n => JsonValue.jnum n).bind JsonValue.asNum = o := by
  cases o <;> rfl

theorem bindMapStr (o : Option String) :
    (o.map fun s => JsonValue.jstr s).bind JsonValue.asStr = o := by
  cases o <;> rfl

theorem entryFromJson_entryToJson (e : SubtitleEntry) :
    entryFromJson (entryToJson e) = some e := by
  unfold entryFromJson
  rw [entryToJson_getField_id, entryToJson_getField_text, entryToJson_getField_platform,
      entryToJson_getField_sessionId, entryToJson_getField_dateCaptured,
      entryToJson_getField_timestamp, entryToJson_getField_url,
      entryToJson_getField_movieTitle, entryToJson_getField_contentType,
      entryToJson_getField_episodeNumber, entryToJson_getField_episodeTitle,
      entryToJson_getField_seasonNumber]
  simp only [bindMapNum, bindMapStr]
  rfl

theorem mapM_entryFromJson_map (subs : List SubtitleEntry) :
    List.mapM entryFromJson (subs.map entryToJson) = some subs := by
  induction subs with
  | nil => rfl
  | cons a as ih =>
    rw [List.map_cons, List.mapM_cons, entryFromJson_entryToJson, ih]
    rfl

/-- C9: exporting any entry collection in the JSON format and re-importing
it — parsing the exported JSON and taking its entry list — recovers the
exported collection exactly (round-trip identity). -/
theorem export_import_roundtrip (subs : List SubtitleEntry) (exportDate : String) :
    importSubtitles (exportSubtitlesJson subs exportDate) = some subs := by
  have hfield : (exportSubtitlesJson subs exportDate).getField "subtitles" =
      some (.jarr (subs.map entryToJson)) := rfl
  unfold importSubtitles
  rw [hfield]
  exact mapM_entryFromJson_map subs

theorem applyPlatformFilter_eq (o : GetSubtitlesOptions) (l : List SubtitleEntry) :
    applyPlatformFilter o l = l.filter (platformPred o) := by
  unfold applyPlatformFilter platformPred
  cases hp : o.platform with
  | none => simp
  | some p => by_cases h : p ≠ "" ∧ p ≠ "all" <;> simp [h]

theorem applyContentTypeFilter_eq (o : GetSubtitlesOptions) (l : List SubtitleEntry) :
    applyContentTypeFilter o l = l.filter (contentTypePred o) := by
  unfold applyContentTypeFilter contentTypePred
  cases hc : o.contentType with
  | none => simp
  | some c => by_cases h : c ≠ "" ∧ c ≠ "all" <;> simp [h]

theorem applySeasonFilter_eq (o : GetSubtitlesOptions) (l : List SubtitleEntry) :
    applySeasonFilter o l = l.filter (seasonPred o) := by
  unfold applySeasonFilter seasonPred
  cases hn : o.seasonNumber with
  | none => simp
  | some n => by_cases h : n ≠ 0 ∧ 0 < n <;> simp [h]

theorem applyEpisodeFilter_eq (o : GetSubtitlesOptions) (l : List SubtitleEntry) :
    applyEpisodeFilter o l = l.filter (episodePred o) := by
  unfold applyEpisodeFilter episodePred
  cases hn : o.episodeNumber with
  | none => simp
  | some n => by_cases h : n ≠ 0 ∧ 0 < n <;> simp [h]

theorem applySearchFilter_eq (o : GetSubtitlesOptions) (l : List SubtitleEntry) :
    applySearchFilter o l = l.filter (searchPred o) := by
  unfold applySearchFilter searchPred
  cases hs : o.search with
  | none => simp
  | some search => by_cases h : search ≠ "" <;> simp [h]

theorem applySessionFilter_eq (o : GetSubtitlesOptions) (l : List SubtitleEntry) :
    applySessionFilter o l = l.filter (sessionPred o) := by
  unfold applySessionFilter sessionPred
  cases hs : o.sessionId with
  | none => simp
  | some sid => by_cases h : sid ≠ "" <;> simp [h]

theorem filters_eq (o : GetSubtitlesOptions) (l : List SubtitleEntry) :
    applySessionFilter o (applySearchFilter o (applyEpisodeFilter o
      (applySeasonFilter o (applyContentTypeFilter o (applyPlatformFilter o l))))) =
    l.filter (matchesFilters o) := by
  rw [applyPlatformFilter_eq, applyContentTypeFilter_eq, applySeasonFilter_eq,
      applyEpisodeFilter_eq, applySearchFilter_eq, applySessionFilter_eq,
      List.filter_filter, List.filter_filter, List.filter_filter, List.filter_filter,
      List.filter_filter]
  refine List.filter_congr ?_
  intro a _
  simp [matchesFilters, Bool.and_comm, Bool.and_left_comm, Bool.and_assoc]

/-- C10 (amended): `getSubtitles` reports as `totalCount` the number of
entries satisfying every applied filter — where a filter whose value is
absent, `'all'`, an empty string (falsy), or a non-positive season/episode
number is not applied — returns as `subtitles` the page-sized slice of the
filtered list in order (never more than the effective page size, default
50), and reports `pageCount` as the ceiling of `totalCount` over the
effective page size. -/
theorem getSubtitles_spec (o : GetSubtitlesOptions) (l : List SubtitleEntry) :
    (getSubtitles o l).totalCount = (l.filter (matchesFilters o)).length ∧
    (getSubtitles o l).subtitles =
      ((l.filter (matchesFilters o)).drop ((effPage o - 1) * effPageSize o)).take
        (effPageSize o) ∧
    (getSubtitles o l).subtitles.length ≤ effPageSize o ∧
    (getSubtitles o l).pageCount =
      ((l.filter (matchesFilters o)).length + effPageSize o - 1) / effPageSize o := by
  have hres : getSubtitles o l =
      { subtitles :=
          ((l.filter (matchesFilters o)).drop ((effPage o - 1) * effPageSize o)).take
            (effPageSize o)
        totalCount := (l.filter (matchesFilters o)).length
        pageCount :=
          ((l.filter (matchesFilters o)).length + effPageSize o - 1) / effPageSize o } := by
    simp only [getSubtitles]
    rw [filters_eq]
  rw [hres]
  exact ⟨rfl, rfl, List.length_take_le _ _, rfl⟩

/-- Options supplying an empty-string platform value: under claim C10's
wording this is a supplied filter (neither `'all'` nor absent) and so
should be applied. -/
def ceOptions : GetSubtitlesOptions :=
  { page := none, pageSize := none, platform := some "", search := none,
    sessionId := none, contentType := none, seasonNumber := none,
    episodeNumber := none }

/-- Counterexample to C10 as stated: with a supplied empty-string platform
filter the code skips the filter entirely (JavaScript falsy check), so
`totalCount` is 1 even though no entry carries the empty platform; the
claimed equality between `totalCount` and the count of entries satisfying
all supplied filters fails. -/
theorem getSubtitles_claim_counterexample :
    (getSubtitles ceOptions [sampleEntry]).totalCount = 1 ∧
    ([sampleEntry].filter (claimMatches ceOptions)).length = 0 ∧
    (getSubtitles ceOptions [sampleEntry]).totalCount ≠
      ([sampleEntry].filter (claimMatches ceOptions)).length := by
  refine ⟨by decide, by decide, by decide⟩
